import Mathlib

/-!
Shallow embedding of the per-user session and admission subsystem of
`src/chatbot.py` (an OpenAI-backed Discord chatbot, ~190 lines of Python).

The embedding models the module-level state (`user_message_cache`,
`user_cooldown`, `user_last_interaction`), the engagement gate of
`on_message` (lines 85-111), the orchestrator `chat_with_openai`
(lines 114-177), the cooldown timer `cooldown_user` (lines 180-184),
`split_message` (lines 63-65), the startup load of `SYSTEM_MESSAGE`
(lines 75-76) and the `Settings.system_message` property (lines 22-25).

External effects are modelled explicitly:
- the file system is an oracle `String → Nat → Option String` giving the
  content of a named file at a given time (`none` = the file is missing,
  so `open` raises `FileNotFoundError`);
- the completion service is an oracle `List Turn → Except String String`
  (`Except.error e` models `openai.error.OpenAIError(e)`);
- `datetime` values are naturals, `datetime.min` is `0`;
- each inbound message is processed at a single time `now`.

A step returns the new state, the list of texts sent to the channel, the
list of prompts passed to the completion service, and whether the handler
returned normally or let an exception escape.
-/

namespace Chatbot

/-- Role tag of a conversation turn, as used in the Python dicts
`{"role": ..., "content": ...}` and the cached pairs `("user", ...)`,
`("assistant", ...)`. -/
inductive Role where
  | system
  | user
  | assistant
deriving DecidableEq

/-- One conversation turn: role and content. -/
abbrev Turn := Role × String

/-- Per-user record held in `user_last_interaction` (chatbot.py line 50):
`{"time": datetime, "channel": channel_id}`. The defaultdict default is
`{"time": datetime.min, "channel": None}`; `datetime.min` is modelled as
time `0` and `None` as `Option.none`. -/
structure InteractionRecord where
  time : Nat
  channel : Option Nat
deriving DecidableEq

/-- The configuration fields of `Settings` (chatbot.py lines 13-32) that the
session subsystem reads. -/
structure Settings where
  max_cache : Nat
  cooldown_time : Nat
  openai_model : String
  system_message_file : String

/-- The defaults declared on `Settings` (chatbot.py lines 16-20). -/
def defaultSettings : Settings :=
  { max_cache := 5
    cooldown_time := 2
    openai_model := "gpt-3.5-turbo-16k"
    system_message_file := "./system_message.txt" }

/-- An inbound Discord message event, reduced to the fields `on_message`
reads: `message.author.id`, `message.author.bot`, `message.content`,
`message.channel.id`, `message.mentions` (as the list of mentioned user
ids) and `message.reference.resolved.author.id` (as an optional author
id, `none` when the message is not a reply). -/
structure Message where
  author_id : Nat
  author_bot : Bool
  content : String
  channel_id : Nat
  mentions : List Nat
  reference : Option Nat

/-- The external world of one process run: the configuration, the bot's own
user id, the file-system oracle and the completion-service oracle. -/
structure Env where
  settings : Settings
  bot_user_id : Nat
  fs : String → Nat → Option String
  completion : List Turn → Except String String

/-- The module-level per-user maps of chatbot.py (lines 44-50), as total
functions whose value on an absent key is the defaultdict default:
`user_message_cache` defaults to an empty deque, `user_cooldown` to `0`,
`user_last_interaction` to `{"time": datetime.min, "channel": None}`. -/
structure BotState where
  user_message_cache : Nat → List Turn
  user_cooldown : Nat → Nat
  user_last_interaction : Nat → InteractionRecord

/-- The state at process start: every map holds only defaults. -/
def initState : BotState :=
  { user_message_cache := fun _ => []
    user_cooldown := fun _ => 0
    user_last_interaction := fun _ => { time := 0, channel := none } }

/-- Python dict assignment `d[k] = v` on a map modelled as a total
function. -/
def dictSet {α : Type} (f : Nat → α) (k : Nat) (v : α) : Nat → α :=
  fun q => if q = k then v else f q

/-- `split_message` (chatbot.py lines 63-65): the chunks
`content[i : i + limit]` for `i in range(0, len(content), limit)`. -/
def split_message (content : String) (limit : Nat) : List String :=
  (List.range ((content.length + limit - 1) / limit)).map
    (fun i => String.mk ((content.toList.drop (i * limit)).take limit))

/-- The startup load (chatbot.py lines 75-76): the content of
`"system_message_copy.txt"` read once at process start (time `0`).
`none` means the process fails to start. -/
def SYSTEM_MESSAGE (fs : String → Nat → Option String) : Option String :=
  fs "system_message_copy.txt" 0

/-- The `Settings.system_message` property (chatbot.py lines 22-25): it
opens and reads `settings.system_message_file` anew on every access, so
its value depends on the access time `t`. -/
def Settings.system_message (s : Settings) (fs : String → Nat → Option String)
    (t : Nat) : Option String :=
  fs s.system_message_file t

/-- `replied_to_bot` (chatbot.py lines 90-92): the message is a reply and
the referenced message's resolved author is the bot. -/
def replied_to_bot (env : Env) (msg : Message) : Bool :=
  match msg.reference with
  | some a => decide (a = env.bot_user_id)
  | none => false

/-- `within_timeframe` (chatbot.py lines 94-96):
`datetime.utcnow() - last_interaction["time"] <= timedelta(seconds=120)`.
Natural-number truncated subtraction agrees with the Python comparison:
a record time in the future gives a negative timedelta in Python, which
is `<= 120s`, and gives `0 ≤ 120` here. -/
def within_timeframe (rec : InteractionRecord) (now : Nat) : Bool :=
  decide (now - rec.time ≤ 120)

/-- `same_channel` (chatbot.py line 97):
`last_interaction["channel"] == message.channel.id`. The default channel
`None` compares unequal to every channel id. -/
def same_channel (rec : InteractionRecord) (channel_id : Nat) : Bool :=
  decide (rec.channel = some channel_id)

/-- The engagement decision of `on_message` (chatbot.py line 99): proceed
iff `mentioned or replied_to_bot or (within_timeframe and same_channel)`. -/
def should_engage (mentioned replied : Bool) (rec : InteractionRecord)
    (channel_id now : Nat) : Bool :=
  mentioned || replied || (within_timeframe rec now && same_channel rec channel_id)

/-- Whether the per-message handler returned normally or an exception
escaped it uncaught. -/
inductive Outcome where
  | normal
  | uncaught (e : String)
deriving DecidableEq

/-- Result of one per-message step: the state after the step, the texts
sent to the channel in order, the prompts passed to the completion
service in order, and the outcome. -/
structure StepResult where
  state : BotState
  sent : List String
  prompts : List (List Turn)
  outcome : Outcome

/-- `chat_with_openai` (chatbot.py lines 114-177).
Control flow, in source order:
- line 115: if `user_cooldown[author]` is truthy (nonzero), send the wait
  notice and return (no completion call, no state change);
- line 129: read `settings.system_message` — the property opens the
  configured file at the current time; if the file is missing the
  `FileNotFoundError` is raised before the `try` block (line 136) and
  escapes the function uncaught;
- lines 129-134: assemble the prompt: system turn, then the cached turns
  in stored order, then the current user message;
- line 137: call the completion service with the prompt;
- on `OpenAIError` (line 167): send the error notice; state unchanged;
- on success (lines 141-165): send the reply through
  `send_large_message`; if `len(cache) >= max_cache` pop the single
  oldest turn (`popleft` on an empty deque raises `IndexError`, caught
  by the generic `except` at line 173, leaving the state unchanged);
  append the user turn then the assistant turn; set
  `user_cooldown[author] = cooldown_time` and schedule `cooldown_user`. -/
def chat_with_openai (env : Env) (st : BotState) (msg : Message) (now : Nat) :
    StepResult :=
  if st.user_cooldown msg.author_id ≠ 0 then
    { state := st
      sent := ["Please wait a bit before chatting again!"]
      prompts := []
      outcome := .normal }
  else
    match env.settings.system_message env.fs now with
    | none =>
        { state := st, sent := [], prompts := []
          outcome := .uncaught "FileNotFoundError" }
    | some sys_text =>
        let messages : List Turn :=
          (Role.system, sys_text) ::
            (st.user_message_cache msg.author_id ++ [(Role.user, msg.content)])
        match env.completion messages with
        | .error e =>
            { state := st
              sent := ["An error occurred: " ++ e]
              prompts := [messages]
              outcome := .normal }
        | .ok ai_message =>
            let cache := st.user_message_cache msg.author_id
            let commit : List Turn → StepResult := fun c =>
              { state :=
                  { st with
                    user_message_cache := dictSet st.user_message_cache msg.author_id c
                    user_cooldown :=
                      dictSet st.user_cooldown msg.author_id env.settings.cooldown_time }
                sent := split_message ai_message 2000
                prompts := [messages]
                outcome := .normal }
            if cache.length ≥ env.settings.max_cache then
              match cache with
              | [] =>
                  { state := st
                    sent := split_message ai_message 2000
                    prompts := [messages]
                    outcome := .normal }
              | _ :: rest =>
                  commit (rest ++ [(Role.user, msg.content), (Role.assistant, ai_message)])
            else
              commit (cache ++ [(Role.user, msg.content), (Role.assistant, ai_message)])

/-- `on_message` (chatbot.py lines 85-111).
- line 86: a message from any bot account is ignored outright;
- lines 89-99: the engagement gate;
- line 107: run `chat_with_openai`;
- lines 108-111: after `chat_with_openai` returns (which it does on the
  cooldown path, the success path and both caught-exception paths),
  unconditionally overwrite `user_last_interaction[author]` with the
  current time and channel. When an exception escapes
  `chat_with_openai`, line 108 is skipped and the exception escapes
  `on_message` as well. -/
def on_message (env : Env) (st : BotState) (msg : Message) (now : Nat) :
    StepResult :=
  if msg.author_bot then
    { state := st, sent := [], prompts := [], outcome := .normal }
  else
    let mentioned := decide (env.bot_user_id ∈ msg.mentions)
    let replied := replied_to_bot env msg
    let last_interaction := st.user_last_interaction msg.author_id
    if should_engage mentioned replied last_interaction msg.channel_id now then
      let r := chat_with_openai env st msg now
      match r.outcome with
      | .uncaught _ => r
      | .normal =>
          { r with
            state :=
              { r.state with
                user_last_interaction :=
                  dictSet r.state.user_last_interaction msg.author_id
                    { time := now, channel := some msg.channel_id } } }
    else
      { state := st, sent := [], prompts := [], outcome := .normal }

/-- Fold `on_message` over a sequence of (message, arrival-time) events. -/
def run (env : Env) (st : BotState) (events : List (Message × Nat)) : BotState :=
  events.foldl (fun s me => (on_message env s me.1 me.2).state) st

/-- Value of `user_cooldown[u]` at time `t`, for `t ≥ t0`, after the success
path set it to `cooldown_time` at time `t0` (chatbot.py line 161) and
`cooldown_user` (lines 180-184) was scheduled: the timer sleeps
`cooldown_time` seconds and then writes `0`, with no other writer in
between. -/
def cooldownValue (d t0 t : Nat) : Nat :=
  if t < t0 + d then d else 0

/-- Truthiness test `if user_cooldown[u]:` on a stored value (chatbot.py
line 115): a Python int is truthy iff nonzero. -/
def isOnCooldown (v : Nat) : Bool :=
  decide (v ≠ 0)

/-- A run environment whose completion call always succeeds with reply
"REPLY", whose files all read "SYS", and whose cooldown is configured to
0 seconds so consecutive exchanges are never blocked. -/
def okEnv : Env :=
  { settings := { defaultSettings with cooldown_time := 0 }
    bot_user_id := 99
    fs := fun _ _ => some "SYS"
    completion := fun _ => .ok "REPLY" }

/-- A run environment whose completion call always fails with
`OpenAIError("boom")`. -/
def failEnv : Env :=
  { settings := defaultSettings
    bot_user_id := 99
    fs := fun _ _ => some "SYS"
    completion := fun _ => .error "boom" }

/-- A run environment where the startup copy `"system_message_copy.txt"`
exists but the configured `"./system_message.txt"` is missing. -/
def missingFileEnv : Env :=
  { settings := defaultSettings
    bot_user_id := 99
    fs := fun name _ => if name = "system_message_copy.txt" then some "A" else none
    completion := fun _ => .ok "REPLY" }

/-- A run environment where the startup copy `"system_message_copy.txt"`
reads "A" while the configured `"./system_message.txt"` reads "B". -/
def driftEnv : Env :=
  { settings := defaultSettings
    bot_user_id := 99
    fs := fun name _ => if name = "system_message_copy.txt" then some "A" else some "B"
    completion := fun _ => .ok "REPLY" }

/-- A non-bot message from user 1 in channel 3 that mentions the bot
(user id 99). -/
def mentionMsg : Message :=
  { author_id := 1
    author_bot := false
    content := "hello"
    channel_id := 3
    mentions := [99]
    reference := none }

/-- A message authored by a bot account. -/
def botMsg : Message :=
  { author_id := 42
    author_bot := true
    content := "beep"
    channel_id := 3
    mentions := [99]
    reference := none }

/-- A state in which user 1 is on an active cooldown (value 2). -/
def cooldownState : BotState :=
  { initState with user_cooldown := dictSet initState.user_cooldown 1 2 }

theorem dictSet_self {α : Type} (f : Nat → α) (k : Nat) (v : α) :
    dictSet f k v k = v := by
  simp [dictSet]

/-- Whenever the cooldown gate passes and the system-message read
succeeds, `chat_with_openai` makes exactly one completion call, with the
prompt system turn, cached turns in order, current user turn. -/
theorem chat_prompts (env : Env) (st : BotState) (msg : Message) (now : Nat)
    (hcd : st.user_cooldown msg.author_id = 0) (s : String)
    (hfs : Settings.system_message env.settings env.fs now = some s) :
    (chat_with_openai env st msg now).prompts =
      [(Role.system, s) ::
        (st.user_message_cache msg.author_id ++ [(Role.user, msg.content)])] := by
  unfold chat_with_openai
  simp only [hcd, hfs]
  simp only [ne_eq, not_true_eq_false, if_false, reduceIte]
  cases h : env.completion ((Role.system, s) ::
      (st.user_message_cache msg.author_id ++ [(Role.user, msg.content)])) with
  | error e => rfl
  | ok ai =>
      by_cases hlen :
        (st.user_message_cache msg.author_id).length ≥ env.settings.max_cache
      · simp only [hlen, if_true]
        cases hc : st.user_message_cache msg.author_id with
        | nil => rfl
        | cons hd tl => rfl
      · simp only [hlen, if_false]

/-- C1: the claim says `len(ConversationCache.read(u)) ≤ max_cache` after
any sequence of operations. The code refutes it: each successful
exchange appends two turns but evicts at most one, so after three
successful exchanges with `max_cache = 5` user 1's cache holds 6 turns. -/
theorem C1_cache_exceeds_max_cache :
    ((run okEnv initState
        [(mentionMsg, 0), (mentionMsg, 1), (mentionMsg, 2)]).user_message_cache 1).length = 6
    ∧ okEnv.settings.max_cache = 5 := by
  constructor
  · rfl
  · rfl

/-- C10: a message authored by a bot account is ignored outright: nothing
is sent, no completion call is made, and the state is returned
untouched. -/
theorem C10_bot_messages_ignored (env : Env) (st : BotState) (msg : Message)
    (now : Nat) (h : msg.author_bot = true) :
    on_message env st msg now =
      { state := st, sent := [], prompts := [], outcome := .normal } := by
  unfold on_message
  simp [h]

/-- Witness for C10 at a concrete bot-authored message. -/
theorem C10_bot_messages_ignored_w :
    botMsg.author_bot = true ∧
    on_message okEnv initState botMsg 0 =
      { state := initState, sent := [], prompts := [], outcome := .normal } :=
  ⟨rfl, C10_bot_messages_ignored okEnv initState botMsg 0 rfl⟩

/-- C8: once a cooldown of configured duration `d ≥ 0` is started for a
user at time `t0`, the stored cooldown value is truthy at every instant
before `t0 + d` and falsy from `t0 + d` on, with no external reset: the
scheduled `cooldown_user` task writes the `0` itself. (With `d = 0` the
stored value is `0` from the start, so the user is never on cooldown,
and the interval before expiry is empty.) -/
theorem C8_cooldown_until_elapsed (d t0 t : Nat) (h : t0 ≤ t) :
    (t < t0 + d → isOnCooldown (cooldownValue d t0 t) = true)
    ∧ (t0 + d ≤ t → isOnCooldown (cooldownValue d t0 t) = false) := by
  constructor
  · intro hlt
    have hd : d ≠ 0 := by omega
    simp [cooldownValue, isOnCooldown, hlt, hd]
  · intro hge
    have hlt : ¬ t < t0 + d := by omega
    simp [cooldownValue, isOnCooldown, hlt]

/-- Witness for C8: duration 2 started at time 10, observed at time 11
(still on cooldown) discharging the hypotheses concretely. -/
theorem C8_cooldown_until_elapsed_w :
    (10 : Nat) ≤ 11 ∧
    ((11 < 10 + 2 → isOnCooldown (cooldownValue 2 10 11) = true)
      ∧ (10 + 2 ≤ 11 → isOnCooldown (cooldownValue 2 10 11) = false)) :=
  ⟨by decide, C8_cooldown_until_elapsed 2 10 11 (by decide)⟩

/-- C5: the engagement decision admits a message iff the bot is
mentioned, or the message is a reply to a bot-authored message, or the
elapsed time since the user's last engaged interaction is at most 120
seconds and the channel equals the last engaged channel; in particular
it admits at exactly 120 seconds, rejects strictly beyond it, and never
admits a non-mention non-reply message from a different channel. -/
theorem C5_engagement_gate (m r : Bool) (rec : InteractionRecord) (ch now : Nat) :
    (should_engage m r rec ch now = true ↔
      (m = true ∨ r = true ∨ (now - rec.time ≤ 120 ∧ rec.channel = some ch)))
    ∧ (now - rec.time = 120 ∧ rec.channel = some ch →
        should_engage m r rec ch now = true)
    ∧ (m = false ∧ r = false ∧ 120 < now - rec.time →
        should_engage m r rec ch now = false)
    ∧ (m = false ∧ r = false ∧ rec.channel ≠ some ch →
        should_engage m r rec ch now = false) := by
  have hiff : should_engage m r rec ch now = true ↔
      (m = true ∨ r = true ∨ (now - rec.time ≤ 120 ∧ rec.channel = some ch)) := by
    simp only [should_engage, within_timeframe, same_channel, Bool.or_eq_true,
      Bool.and_eq_true, decide_eq_true_eq]
    tauto
  refine ⟨hiff, ?_, ?_, ?_⟩
  · rintro ⟨h1, h2⟩
    exact hiff.mpr (Or.inr (Or.inr ⟨le_of_eq h1, h2⟩))
  · rintro ⟨hm, hr, ht⟩
    cases hse : should_engage m r rec ch now with
    | false => rfl
    | true =>
        rcases hiff.mp hse with h | h | ⟨h1, _⟩
        · rw [hm] at h; exact absurd h (by simp)
        · rw [hr] at h; exact absurd h (by simp)
        · omega
  · rintro ⟨hm, hr, hch⟩
    cases hse : should_engage m r rec ch now with
    | false => rfl
    | true =>
        rcases hiff.mp hse with h | h | ⟨_, h2⟩
        · rw [hm] at h; exact absurd h (by simp)
        · rw [hr] at h; exact absurd h (by simp)
        · exact absurd h2 hch

/-- Witness for C5, at the exact continuation-window boundary: no
mention, no reply, same channel, elapsed exactly 120 seconds →
admitted. -/
theorem C5_engagement_gate_w :
    ((120 : Nat) - ({ time := 0, channel := some 3 } : InteractionRecord).time = 120
      ∧ ({ time := 0, channel := some 3 } : InteractionRecord).channel = some 3)
    ∧ should_engage false false { time := 0, channel := some 3 } 3 120 = true :=
  ⟨by decide,
    (C5_engagement_gate false false { time := 0, channel := some 3 } 3 120).2.1
      (by decide)⟩

/-- C2: on a successful exchange the orchestrator appends exactly two
turns to the user's cache, the user turn then the assistant turn, in
that order at the end; when the cache is below capacity nothing is
evicted, and when it is exactly at capacity the single oldest turn is
evicted first, leaving the relative order of the remaining turns
unchanged. (`max_cache ≥ 1` as the configuration contract requires.) -/
theorem C2_successful_exchange (env : Env) (st : BotState) (msg : Message)
    (now : Nat)
    (hmax : 0 < env.settings.max_cache)
    (hcd : st.user_cooldown msg.author_id = 0)
    (s r : String)
    (hfs : Settings.system_message env.settings env.fs now = some s)
    (hc : env.completion ((Role.system, s) ::
        (st.user_message_cache msg.author_id ++ [(Role.user, msg.content)])) = .ok r) :
    ((st.user_message_cache msg.author_id).length < env.settings.max_cache →
      (chat_with_openai env st msg now).state.user_message_cache msg.author_id
        = st.user_message_cache msg.author_id
            ++ [(Role.user, msg.content), (Role.assistant, r)])
    ∧ ((st.user_message_cache msg.author_id).length = env.settings.max_cache →
      (chat_with_openai env st msg now).state.user_message_cache msg.author_id
        = (st.user_message_cache msg.author_id).tail
            ++ [(Role.user, msg.content), (Role.assistant, r)]) := by
  unfold chat_with_openai
  simp only [hcd, ne_eq, not_true_eq_false, reduceIte, hfs, hc]
  constructor
  · intro hlen
    have hge : ¬ (st.user_message_cache msg.author_id).length ≥ env.settings.max_cache :=
      not_le.mpr hlen
    simp only [hge, if_false, dictSet_self]
  · intro hlen
    have hge : (st.user_message_cache msg.author_id).length ≥ env.settings.max_cache :=
      le_of_eq hlen.symm
    simp only [hge, if_true]
    cases hcache : st.user_message_cache msg.author_id with
    | nil =>
        rw [hcache] at hlen
        simp at hlen
        omega
    | cons hd tl =>
        simp only [dictSet_self, List.tail_cons]

/-- Witness for C2: user 1's empty cache, a successful completion in
`okEnv`, below capacity, yields exactly the appended pair. -/
theorem C2_successful_exchange_w :
    (0 < okEnv.settings.max_cache
      ∧ initState.user_cooldown mentionMsg.author_id = 0
      ∧ Settings.system_message okEnv.settings okEnv.fs 0 = some "SYS"
      ∧ okEnv.completion ((Role.system, "SYS") ::
          (initState.user_message_cache mentionMsg.author_id
            ++ [(Role.user, mentionMsg.content)])) = .ok "REPLY")
    ∧ ((initState.user_message_cache mentionMsg.author_id).length < okEnv.settings.max_cache →
        (chat_with_openai okEnv initState mentionMsg 0).state.user_message_cache
            mentionMsg.author_id
          = initState.user_message_cache mentionMsg.author_id
              ++ [(Role.user, mentionMsg.content), (Role.assistant, "REPLY")]) :=
  ⟨⟨by decide, rfl, rfl, rfl⟩,
    (C2_successful_exchange okEnv initState mentionMsg 0 (by decide) rfl "SYS" "REPLY"
      rfl rfl).1⟩

/-- C3 counterexample: with a failing completion service, the claim that
`InteractionTracker.get(u)` is unchanged after a failed exchange is
false — `on_message` overwrites `user_last_interaction` after
`chat_with_openai` returns, and the error path returns normally. -/
theorem C3_interaction_record_changed_on_failure :
    (on_message failEnv initState mentionMsg 5).state.user_last_interaction 1
      ≠ initState.user_last_interaction 1 := by
  decide

/-- C3 (amended): after a failed completion for an admitted message, the
conversation cache and the cooldown map are exactly their pre-attempt
values, but the interaction record of the user is overwritten with the
current time and channel, because `on_message` updates it
unconditionally once `chat_with_openai` returns. -/
theorem C3_failed_exchange_amended (env : Env) (st : BotState) (msg : Message)
    (now : Nat)
    (hbot : msg.author_bot = false)
    (hgate : should_engage (decide (env.bot_user_id ∈ msg.mentions))
        (replied_to_bot env msg) (st.user_last_interaction msg.author_id)
        msg.channel_id now = true)
    (hcd : st.user_cooldown msg.author_id = 0)
    (s e : String)
    (hfs : Settings.system_message env.settings env.fs now = some s)
    (hc : env.completion ((Role.system, s) ::
        (st.user_message_cache msg.author_id ++ [(Role.user, msg.content)])) = .error e) :
    (on_message env st msg now).state.user_message_cache = st.user_message_cache
    ∧ (on_message env st msg now).state.user_cooldown = st.user_cooldown
    ∧ (on_message env st msg now).state.user_last_interaction msg.author_id
        = { time := now, channel := some msg.channel_id } := by
  unfold on_message chat_with_openai
  simp only [hbot, Bool.false_eq_true, if_false, hgate, if_true, hcd, ne_eq,
    not_true_eq_false, reduceIte, hfs, hc, dictSet_self]
  exact ⟨trivial, trivial, trivial⟩

/-- Witness for C3's amended statement on a concrete failing exchange. -/
theorem C3_failed_exchange_amended_w :
    (mentionMsg.author_bot = false
      ∧ should_engage (decide (failEnv.bot_user_id ∈ mentionMsg.mentions))
          (replied_to_bot failEnv mentionMsg)
          (initState.user_last_interaction mentionMsg.author_id)
          mentionMsg.channel_id 5 = true
      ∧ initState.user_cooldown mentionMsg.author_id = 0)
    ∧ (on_message failEnv initState mentionMsg 5).state.user_last_interaction
        mentionMsg.author_id = { time := 5, channel := some mentionMsg.channel_id } :=
  ⟨⟨rfl, by decide, rfl⟩,
    (C3_failed_exchange_amended failEnv initState mentionMsg 5 rfl (by decide) rfl
      "SYS" "boom" rfl rfl).2.2⟩

/-- C4 counterexample: a user on active cooldown who is admitted by the
gate does receive the wait notice, but the claim that the interaction
record is unchanged is false — `on_message` overwrites it after
`chat_with_openai` returns from the cooldown short-circuit. -/
theorem C4_interaction_record_changed_on_cooldown :
    (on_message okEnv cooldownState mentionMsg 7).state.user_last_interaction 1
      ≠ cooldownState.user_last_interaction 1 := by
  decide

/-- C4 (amended): for an admitted message from a user on cooldown, the
orchestrator sends exactly the wait notice and makes no completion call
(it returns before prompt assembly), and the conversation cache and
cooldown map are unchanged; the interaction record, however, is
overwritten with the current time and channel by `on_message`. -/
theorem C4_cooldown_short_circuit (env : Env) (st : BotState) (msg : Message)
    (now : Nat)
    (hbot : msg.author_bot = false)
    (hgate : should_engage (decide (env.bot_user_id ∈ msg.mentions))
        (replied_to_bot env msg) (st.user_last_interaction msg.author_id)
        msg.channel_id now = true)
    (hcd : st.user_cooldown msg.author_id ≠ 0) :
    (on_message env st msg now).sent = ["Please wait a bit before chatting again!"]
    ∧ (on_message env st msg now).prompts = []
    ∧ (on_message env st msg now).state.user_message_cache = st.user_message_cache
    ∧ (on_message env st msg now).state.user_cooldown = st.user_cooldown
    ∧ (on_message env st msg now).state.user_last_interaction msg.author_id
        = { time := now, channel := some msg.channel_id } := by
  unfold on_message chat_with_openai
  simp only [hbot, Bool.false_eq_true, if_false, hgate, if_true, ne_eq, hcd,
    not_false_eq_true, reduceIte, dictSet_self]
  exact ⟨trivial, trivial, trivial, trivial, trivial⟩

/-- Witness for C4's amended statement on a concrete cooldown-blocked
exchange. -/
theorem C4_cooldown_short_circuit_w :
    (mentionMsg.author_bot = false
      ∧ should_engage (decide (okEnv.bot_user_id ∈ mentionMsg.mentions))
          (replied_to_bot okEnv mentionMsg)
          (cooldownState.user_last_interaction mentionMsg.author_id)
          mentionMsg.channel_id 7 = true
      ∧ cooldownState.user_cooldown mentionMsg.author_id ≠ 0)
    ∧ (on_message okEnv cooldownState mentionMsg 7).sent
        = ["Please wait a bit before chatting again!"] :=
  ⟨⟨rfl, by decide, by decide⟩,
    (C4_cooldown_short_circuit okEnv cooldownState mentionMsg 7 rfl (by decide)
      (by decide)).1⟩

/-- C6: whenever a completion request is made for user `u` with message
`m`, the prompt is exactly one system turn, then the turns of `u`'s
cache in stored order with their roles, then one user turn carrying
`m`'s content — and exactly one request is made. -/
theorem C6_prompt_assembly (env : Env) (st : BotState) (msg : Message) (now : Nat)
    (hcd : st.user_cooldown msg.author_id = 0) (s : String)
    (hfs : Settings.system_message env.settings env.fs now = some s) :
    (chat_with_openai env st msg now).prompts =
      [(Role.system, s) ::
        (st.user_message_cache msg.author_id ++ [(Role.user, msg.content)])] :=
  chat_prompts env st msg now hcd s hfs

/-- Witness for C6 on a concrete exchange with an empty cache. -/
theorem C6_prompt_assembly_w :
    (initState.user_cooldown mentionMsg.author_id = 0
      ∧ Settings.system_message okEnv.settings okEnv.fs 0 = some "SYS")
    ∧ (chat_with_openai okEnv initState mentionMsg 0).prompts =
        [(Role.system, "SYS") ::
          (initState.user_message_cache mentionMsg.author_id
            ++ [(Role.user, mentionMsg.content)])] :=
  ⟨⟨rfl, rfl⟩, C6_prompt_assembly okEnv initState mentionMsg 0 rfl "SYS" rfl⟩

/-- C7 counterexample: with the startup copy reading "A" and the
configured settings file reading "B", the prompt's system turn carries
"B", not the startup-loaded text "A" — so prompt assembly does not use
the text loaded once at startup. -/
theorem C7_prompt_not_startup_text :
    SYSTEM_MESSAGE driftEnv.fs = some "A"
    ∧ (chat_with_openai driftEnv initState mentionMsg 0).prompts =
        [[(Role.system, "B"), (Role.user, "hello")]]
    ∧ ("B" : String) ≠ "A" :=
  ⟨rfl, rfl, by decide⟩

/-- C7 (amended): the system-message text used in prompt assembly is
re-read from `settings.system_message_file` at the time of each request
(the `Settings.system_message` property opens the file on every
access); the copy loaded once at startup into `SYSTEM_MESSAGE` is not
the one used, so requests at different times can carry different system
texts if the file changes. -/
theorem C7_system_text_reread (env : Env) (st : BotState) (msg : Message)
    (now : Nat)
    (hcd : st.user_cooldown msg.author_id = 0) (s : String)
    (hfs : env.fs env.settings.system_message_file now = some s) :
    ∀ p ∈ (chat_with_openai env st msg now).prompts,
      p.head? = some (Role.system, s) := by
  have hfs' : Settings.system_message env.settings env.fs now = some s := hfs
  have h := chat_prompts env st msg now hcd s hfs'
  intro p hp
  rw [h] at hp
  simp only [List.mem_singleton] at hp
  subst hp
  rfl

/-- Witness for C7's amended statement: the request-time read of the
configured file ("B") is what lands in the system turn. -/
theorem C7_system_text_reread_w :
    (initState.user_cooldown mentionMsg.author_id = 0
      ∧ driftEnv.fs driftEnv.settings.system_message_file 0 = some "B")
    ∧ ∀ p ∈ (chat_with_openai driftEnv initState mentionMsg 0).prompts,
        p.head? = some (Role.system, "B") :=
  ⟨⟨rfl, rfl⟩, C7_system_text_reread driftEnv initState mentionMsg 0 rfl "B" rfl⟩

/-- C9 counterexample: in a process that started successfully (the
startup copy of the system message exists), a message whose orchestration
reaches prompt assembly while the configured system-message file is
missing raises `FileNotFoundError` before the `try` block, and the
exception escapes the per-message handler — the escape branch is
reachable. -/
theorem C9_assembly_exception_escapes :
    SYSTEM_MESSAGE missingFileEnv.fs = some "A"
    ∧ (on_message missingFileEnv initState mentionMsg 0).outcome
        = .uncaught "FileNotFoundError" :=
  ⟨rfl, rfl⟩

/-- Helper: when the system-message read succeeds, `chat_with_openai`
returns normally on every path (cooldown short-circuit, completion
error, success — including the empty-pop corner, whose `IndexError` is
caught by the generic handler). -/
theorem chat_outcome_normal (env : Env) (st : BotState) (msg : Message)
    (now : Nat) (s : String)
    (hs : Settings.system_message env.settings env.fs now = some s) :
    (chat_with_openai env st msg now).outcome = .normal := by
  unfold chat_with_openai
  by_cases hcd : st.user_cooldown msg.author_id ≠ 0
  · rw [if_pos hcd]
  · rw [if_neg hcd]
    simp only [hs]
    cases h : env.completion ((Role.system, s) ::
        (st.user_message_cache msg.author_id ++ [(Role.user, msg.content)])) with
    | error e => rfl
    | ok ai =>
        by_cases hlen :
          (st.user_message_cache msg.author_id).length ≥ env.settings.max_cache
        · simp only [hlen, if_true]
          cases hc : st.user_message_cache msg.author_id with
          | nil => rfl
          | cons hd tl => rfl
        · simp only [hlen, if_false]

/-- C9 (amended): every exception raised inside the `try` block — in
particular any completion-service failure — is caught within the
per-message handler, so the handler returns normally whenever the
system-message file read of prompt assembly succeeds; only an exception
raised during prompt assembly itself (which sits before the `try`
block) escapes the handler. -/
theorem C9_exceptions_contained (env : Env) (st : BotState) (msg : Message)
    (now : Nat)
    (hfs : (Settings.system_message env.settings env.fs now).isSome = true) :
    (on_message env st msg now).outcome = .normal := by
  obtain ⟨s, hs⟩ := Option.isSome_iff_exists.mp hfs
  have hchat := chat_outcome_normal env st msg now s hs
  unfold on_message
  by_cases hbot : msg.author_bot = true
  · simp only [hbot, if_true]
  · simp only [hbot, Bool.false_eq_true, if_false]
    by_cases hgate : should_engage (decide (env.bot_user_id ∈ msg.mentions))
        (replied_to_bot env msg) (st.user_last_interaction msg.author_id)
        msg.channel_id now = true
    · simp only [hgate, if_true, hchat]
    · simp only [hgate, Bool.false_eq_true, if_false]

/-- Witness for C9's amended statement on a concrete run whose
completion call fails but whose system-message file exists. -/
theorem C9_exceptions_contained_w :
    (Settings.system_message failEnv.settings failEnv.fs 0).isSome = true
    ∧ (on_message failEnv initState mentionMsg 0).outcome = .normal :=
  ⟨rfl, C9_exceptions_contained failEnv initState mentionMsg 0 rfl⟩

end Chatbot
